import Mathlib

/-!
Shallow embedding of the chat-widget backend (FastAPI + python-socketio).

The embedding covers:
* the data model (`app/models.py`, `app/schemas.py`): conversations and
  messages with sender enumeration and timestamps;
* the Socket.IO handlers (`app/routers/websocket.py`): `join_conversation`,
  `leave_conversation`, `typing` and `send_message`.  A handler is modelled
  as a pure function from its inputs (and the externally supplied
  non-determinism: generated UUIDs, clock values, database-commit outcomes
  and the response-generator outcome) to the updated store together with the
  ordered list of emitted Socket.IO effects;
* the REST endpoints of `app/routers/messages.py`: paginated message
  listing, message creation, editing and deletion;
* the action-attachment logic of `app/utils/chatbot_logic.py`
  (`generate_ai_response`); the LLM call `chain.run` is an external
  collaborator, so the text it returns is a parameter of the model.

Timestamps are natural numbers (the database stores them as monotone wall
clock values; only their ordering matters here).  Python `None` becomes
`Option.none`; Python string falsiness (`not s` true for `None` and `""`)
is `pyFalsyStr`.
-/

namespace ChatWidget

/-- Sender enumeration (`SenderEnum` in `app/models.py` / `app/schemas.py`):
a message is sent either by the AI or by the user. -/
inductive Sender where
  | ai
  | user
deriving DecidableEq, Repr

/-- A persisted message row (`Message` in `app/models.py`): id,
conversation id, sender, text content, created/updated timestamps. -/
structure Msg where
  id : String
  conversation_id : String
  sender : Sender
  content : String
  created_at : Nat
  updated_at : Nat
deriving DecidableEq, Repr

/-- A persisted conversation row (`Conversation` in `app/models.py`). -/
structure Conversation where
  id : String
  user_id : String
  created_at : Nat
deriving DecidableEq, Repr

/-- The persistent store: the `conversations` and `messages` tables. -/
structure DB where
  conversations : List Conversation
  messages : List Msg
deriving DecidableEq, Repr

/-- The suggested-actions map attached to some AI replies
(`app/utils/chatbot_logic.py`, fields `action1` / `action2`). -/
structure Actions where
  action1 : String
  action2 : String
deriving DecidableEq, Repr

/-- One outbound Socket.IO effect, in emission order.

* `newMessage room msg actions?`: `sio.emit('new_message', payload, room)`.
  `actions? = none` means the payload has no `actions` key at all (the user
  message broadcast); `actions? = some a` means the payload carries an
  `actions` key whose value is `a` (`a = none` encodes JSON `null`).
* `typingEvt room skip userId isTyping`: `sio.emit('typing', ...)` to the
  room, skipping session `skip` when present.
* `errorTo sid message`: `sio.emit('error', {'message': ...}, to=sid)` —
  delivered to the one session only, never broadcast.
* `enterRoom` / `leaveRoom`: room-membership changes. -/
inductive Emit where
  | newMessage (room : String) (msg : Msg) (actionsField : Option (Option Actions))
  | typingEvt (room : String) (skip : Option String) (userId : String) (isTyping : Bool)
  | errorTo (sid : String) (message : String)
  | enterRoom (sid : String) (room : String)
  | leaveRoom (sid : String) (room : String)
deriving DecidableEq, Repr

/-- Python truthiness test used by the handlers on optional string fields:
`not x` is true exactly when the field is absent (`None`) or the empty
string. -/
def pyFalsyStr : Option String → Bool
  | none => true
  | some s => s == ""

/-- Substring containment: Python `needle in hay`. -/
def strContains (hay needle : String) : Bool :=
  decide (needle.toList <:+: hay.toList)

/-- The reply produced by `generate_ai_response`
(`app/utils/chatbot_logic.py`): reply text plus optional actions. -/
structure AIResponse where
  content : String
  actions : Option Actions
deriving DecidableEq, Repr

/-- `generate_ai_response` (`app/utils/chatbot_logic.py`, lines 38-65),
modelled after the external LLM call: `response_text` is the text returned
by `chain.run`.  The source tests `"Learn More".lower() in response_text`
and `"Account Issue".lower() in response_text`; the Python `.lower()`
calls evaluate to the constants `"learn more"` and `"account issue"`. -/
def generate_ai_response (response_text : String) : AIResponse :=
  let actions : Option Actions :=
    if strContains response_text "learn more" then
      some { action1 := "Learn More", action2 := "Get Help" }
    else if strContains response_text "account issue" then
      some { action1 := "Account Issues", action2 := "Technical Support" }
    else
      none
  { content := response_text, actions := actions }

/-- `join_conversation` (`app/routers/websocket.py`, lines 34-48): enter the
room when `conversationId` is truthy, otherwise an error to the sender. -/
def join_conversation (sid : String) (conversationId : Option String) : List Emit :=
  if pyFalsyStr conversationId then
    [Emit.errorTo sid "conversationId is required"]
  else
    [Emit.enterRoom sid (conversationId.getD "")]

/-- `leave_conversation` (`app/routers/websocket.py`, lines 51-65). -/
def leave_conversation (sid : String) (conversationId : Option String) : List Emit :=
  if pyFalsyStr conversationId then
    [Emit.errorTo sid "conversationId is required"]
  else
    [Emit.leaveRoom sid (conversationId.getD "")]

/-- `typing` (`app/routers/websocket.py`, lines 68-90): when both fields are
present (`is not None` — the empty string and `False` pass), rebroadcast
`{userId: sid, isTyping}` to the room, skipping the sender; otherwise an
error to the sender. -/
def typing (sid : String) (conversationId : Option String) (isTyping : Option Bool) :
    List Emit :=
  match conversationId, isTyping with
  | some cid, some t => [Emit.typingEvt cid (some sid) sid t]
  | _, _ => [Emit.errorTo sid "conversationId and isTyping are required"]

/-- Outcome of one `db.commit()` as seen by the handler: either the write
succeeds or the database layer raises (caught by the handler's `except`). -/
inductive CommitOutcome where
  | ok
  | raised
deriving DecidableEq, Repr

/-- Outcome of `await asyncio.to_thread(generate_ai_response, content)` as
the handler's `try`/`except` distinguishes it: a reply value, or an
exception propagating out of the call (no timeout wraps the await).

In the shipped source the `ok` outcome is unrealizable: the call site
(`websocket.py`, line 141) supplies one argument while
`generate_ai_response` (`chatbot_logic.py`, line 38) has two required
positional parameters, so the Python call protocol raises `TypeError`
before the callee body runs and every execution takes the `raised` arm
(see `generate_ai_response_param_count`, `generator_call_arg_count`,
`generator_call_raises` and `send_message_shipped` below).  The `ok`
constructor models the `try`-body continuation as it stands in the source,
exercised by no execution of the program. -/
inductive GenOutcome where
  | ok (reply : AIResponse)
  | raised
deriving DecidableEq, Repr

/-- `send_message` (`app/routers/websocket.py`, lines 93-177).

Inputs beyond the event data: the current store `db`, the two fresh UUIDs
and clock readings consumed on the success path, and the outcomes of the
two commits and of the generator call (external non-determinism).

Faithful control flow of the source:
1. `if not conversation_id or not content`: error to the sender, return.
2. persist the user message (no conversation-existence check — the
   handler inserts directly, and SQLite does not enforce the foreign key);
   a raise lands in the `except` branch: error to the sender only.
3. broadcast `new_message` with the persisted user message (no `actions`
   key in the payload), then `typing {userId: 'ai', isTyping: True}` with
   `skip_sid=None`.
4. run the generator; a raise lands in the `except` branch: error to the
   sender only — note no `typing` false is emitted on this path.
5. persist the AI message; a raise: same `except` branch.
6. emit `typing {userId: 'ai', isTyping: False}` and then broadcast
   `new_message` for the AI message, whose payload always carries the
   `actions` key with the generator-returned value.

Steps 5-6 (the `GenOutcome.ok` continuation) are transcribed from the
source but are dead code in the shipped program: the generator call at
step 4 always raises `TypeError` because of its arity mismatch (see
`generator_call_raises`), so every execution ends in the `except` branch
there.  `send_message_shipped` below restricts this function to the
realizable outcome. -/
def send_message (sid : String) (conversationId content : Option String) (db : DB)
    (uuidUser uuidAi : String) (tUser tAi : Nat)
    (commitUser : CommitOutcome) (gen : GenOutcome) (commitAi : CommitOutcome) :
    DB × List Emit :=
  if pyFalsyStr conversationId || pyFalsyStr content then
    (db, [Emit.errorTo sid "conversationId and content are required"])
  else
    let cid := conversationId.getD ""
    let c := content.getD ""
    match commitUser with
    | CommitOutcome.raised => (db, [Emit.errorTo sid "Internal server error"])
    | CommitOutcome.ok =>
      let userMsg : Msg :=
        { id := uuidUser, conversation_id := cid, sender := Sender.user,
          content := c, created_at := tUser, updated_at := tUser }
      let db1 : DB := { db with messages := db.messages ++ [userMsg] }
      let pre : List Emit :=
        [Emit.newMessage cid userMsg none,
         Emit.typingEvt cid none "ai" true]
      match gen with
      | GenOutcome.raised => (db1, pre ++ [Emit.errorTo sid "Internal server error"])
      | GenOutcome.ok reply =>
        match commitAi with
        | CommitOutcome.raised => (db1, pre ++ [Emit.errorTo sid "Internal server error"])
        | CommitOutcome.ok =>
          let aiMsg : Msg :=
            { id := uuidAi, conversation_id := cid, sender := Sender.ai,
              content := reply.content, created_at := tAi, updated_at := tAi }
          let db2 : DB := { db1 with messages := db1.messages ++ [aiMsg] }
          (db2, pre ++ [Emit.typingEvt cid none "ai" false,
                        Emit.newMessage cid aiMsg (some reply.actions)])

/-- Recognizer for a `typing` emission with `userId = 'ai'` and the given
flag, used to count typing events in a handler trace. -/
def isAiTyping (flag : Bool) : Emit → Bool
  | Emit.typingEvt _ _ userId t => userId == "ai" && t == flag
  | _ => false

/-- Recognizer for any room-directed emission (a broadcast): `new_message`
or `typing`.  `error` emissions go to a single session and are not
broadcasts. -/
def isBroadcast : Emit → Bool
  | Emit.newMessage _ _ _ => true
  | Emit.typingEvt _ _ _ _ => true
  | _ => false

/-- The paginated response of `GET /conversations/{id}/messages`
(`MessagePagination` in `app/schemas.py`). -/
structure MessagePagination where
  messages : List Msg
  total : Nat
  page : Nat
  size : Nat
deriving DecidableEq, Repr

/-- The `ORDER BY created_at DESC` step of the pagination query: sort the
conversation's rows newest-first. -/
def sortByCreatedDesc (l : List Msg) : List Msg :=
  l.mergeSort (fun a b => b.created_at ≤ a.created_at)

/-- `get_messages` (`app/routers/messages.py`, lines 67-105): count the
conversation's messages, then return the page slice of the newest-first
ordering with `skip = (page - 1) * size` and `LIMIT size`. -/
def get_messages (db : DB) (conversation_id : String) (page size : Nat) :
    MessagePagination :=
  let skip := (page - 1) * size
  let convMsgs := db.messages.filter (fun m => m.conversation_id == conversation_id)
  let total := convMsgs.length
  let msgs := ((sortByCreatedDesc convMsgs).drop skip).take size
  { messages := msgs, total := total, page := page, size := size }

/-- `send_message` of the REST router (`app/routers/messages.py`, lines
108-140): 404 when the conversation does not exist, otherwise insert and
return the new message.  (This is the endpoint — unlike the Socket.IO
handler — that checks conversation existence.) -/
def rest_send_message (db : DB) (conversation_id : String) (sender : Sender)
    (content : String) (uuid : String) (t : Nat) : DB × Except Nat Msg :=
  if db.conversations.any (fun cv => cv.id == conversation_id) then
    let m : Msg :=
      { id := uuid, conversation_id := conversation_id, sender := sender,
        content := content, created_at := t, updated_at := t }
    ({ db with messages := db.messages ++ [m] }, Except.ok m)
  else
    (db, Except.error 404)

/-- The row filter shared by `edit_message` and `delete_message`
(`app/routers/messages.py`): the row must match the message id, the
conversation id, and have `sender == user`. -/
def editableFilter (conversation_id message_id : String) (m : Msg) : Bool :=
  m.id == message_id && m.conversation_id == conversation_id && m.sender == Sender.user

/-- `edit_message` (`app/routers/messages.py`, lines 143-177): look up the
first row passing `editableFilter`; absent → 404 and the store is
untouched.  Present: when `content` is supplied, update that row (primary
key `id`) and its `updated_at`; when `content` is `None` the commit writes
nothing.  Returns the resulting store and the HTTP result. -/
def edit_message (db : DB) (conversation_id message_id : String)
    (newContent : Option String) (now : Nat) : DB × Except Nat Msg :=
  match db.messages.find? (editableFilter conversation_id message_id) with
  | none => (db, Except.error 404)
  | some m =>
    match newContent with
    | none => (db, Except.ok m)
    | some c =>
      let m2 : Msg := { m with content := c, updated_at := now }
      ({ db with messages := db.messages.map (fun x => if x.id == m.id then m2 else x) },
       Except.ok m2)

/-- `delete_message` (`app/routers/messages.py`, lines 180-208): look up the
first row passing `editableFilter`; absent → 404 and the store is
untouched; present → delete that row (primary key `id`), 204. -/
def delete_message (db : DB) (conversation_id message_id : String) :
    DB × Except Nat Unit :=
  match db.messages.find? (editableFilter conversation_id message_id) with
  | none => (db, Except.error 404)
  | some m =>
    ({ db with messages := db.messages.eraseP (fun x => x.id == m.id) }, Except.ok ())

/-- Number of required positional parameters of `generate_ai_response`
(`chatbot_logic.py`, line 38:
`def generate_ai_response(user_message: str, messages: list)` — neither
parameter has a default). -/
def generate_ai_response_param_count : Nat := 2

/-- Number of arguments the Socket.IO handler supplies at the function's
only call site (`websocket.py`, line 141:
`asyncio.to_thread(generate_ai_response, content)` — `content` alone). -/
def generator_call_arg_count : Nat := 1

/-- The Python call protocol raises `TypeError` before the callee body runs
whenever the supplied positional-argument count differs from the required
parameter count; applied to the generator call site this is true, so the
`await` at `websocket.py` line 141 raises on every execution. -/
def generator_call_raises : Bool :=
  generator_call_arg_count != generate_ai_response_param_count

/-- `send_message` as shipped: since `generator_call_raises` (the arity
mismatch above), the only realizable generator outcome is
`GenOutcome.raised`, and control never reaches the AI-message commit, so
its outcome is irrelevant (fixed to `ok` here; any value gives the same
result on the `raised` arm). -/
def send_message_shipped (sid : String) (conversationId content : Option String)
    (db : DB) (uuidUser uuidAi : String) (tUser tAi : Nat)
    (commitUser : CommitOutcome) : DB × List Emit :=
  send_message sid conversationId content db uuidUser uuidAi tUser tAi
    commitUser GenOutcome.raised CommitOutcome.ok

/-- Recognizer for a `new_message` broadcast whose message row was sent by
the AI. -/
def isAiNewMessage : Emit → Bool
  | Emit.newMessage _ m _ => m.sender == Sender.ai
  | _ => false

/-- C5: a `send_message` event whose `conversationId` or `content` is
missing or empty produces an `error` event to the sending session only,
with no persistence, no room broadcast, and no other side effect: the store
is returned unchanged and the only emission is the `error` to the sender. -/
theorem send_message_validation (sid : String) (conversationId content : Option String)
    (db : DB) (uu ua : String) (tu ta : Nat) (cu : CommitOutcome) (g : GenOutcome)
    (ca : CommitOutcome)
    (h : pyFalsyStr conversationId = true ∨ pyFalsyStr content = true) :
    send_message sid conversationId content db uu ua tu ta cu g ca =
      (db, [Emit.errorTo sid "conversationId and content are required"]) := by
  unfold send_message
  rcases h with h | h <;> simp [h]

/-- Witness for `send_message_validation`: a concrete event with a missing
`conversationId` is rejected with the validation error and no side effect. -/
theorem send_message_validation_witness :
    send_message "s1" none (some "hello") ⟨[], []⟩ "u1" "a1" 0 1
        CommitOutcome.ok GenOutcome.raised CommitOutcome.ok =
      (⟨[], []⟩, [Emit.errorTo "s1" "conversationId and content are required"]) :=
  send_message_validation "s1" none (some "hello") ⟨[], []⟩ "u1" "a1" 0 1
    CommitOutcome.ok GenOutcome.raised CommitOutcome.ok (Or.inl (by decide))

/-- C6: an inbound `typing` event supplying both `conversationId` and
`isTyping` is rebroadcast as a single `typing` event with payload
`{userId: sender session id, isTyping: given flag}` to the room, skipping
the sending session, and nothing else is emitted. -/
theorem typing_rebroadcast (sid cid : String) (t : Bool) :
    typing sid (some cid) (some t) = [Emit.typingEvt cid (some sid) sid t] := rfl

/-- C10: the `typing` handler rejects only a `None` field: `isTyping =
false` and an empty-string `conversationId` are accepted and rebroadcast,
while `join_conversation` and `leave_conversation` reject the empty-string
`conversationId` with an error to the sender. -/
theorem typing_null_vs_empty (sid : String) :
    typing sid (some "") (some false) = [Emit.typingEvt "" (some sid) sid false]
    ∧ (∀ cid t, typing sid (some cid) (some t) = [Emit.typingEvt cid (some sid) sid t])
    ∧ (∀ t, typing sid none t =
        [Emit.errorTo sid "conversationId and isTyping are required"])
    ∧ (∀ cid, typing sid (some cid) none =
        [Emit.errorTo sid "conversationId and isTyping are required"])
    ∧ join_conversation sid (some "") = [Emit.errorTo sid "conversationId is required"]
    ∧ leave_conversation sid (some "") = [Emit.errorTo sid "conversationId is required"] := by
  refine ⟨rfl, fun cid t => rfl, fun t => ?_, fun cid => rfl, rfl, rfl⟩
  cases t <;> rfl

/-- C1 (counterexample): a concrete `send_message` run in which the user
message persists, `typing(ai,true)` is emitted, and then the response
generator raises: the handler terminates having emitted `typing(ai,true)`
once but `typing(ai,false)` zero times — the clear-typing event is not on
this exit path, contradicting the claim that it is emitted exactly once on
every exit path after `typing(ai,true)` has fired. -/
theorem typing_clear_counterexample :
    ((send_message "s3" (some "c3") (some "hi") ⟨[], []⟩ "u3" "a3" 0 1
        CommitOutcome.ok GenOutcome.raised CommitOutcome.ok).2.countP
        (isAiTyping true) = 1)
    ∧ ((send_message "s3" (some "c3") (some "hi") ⟨[], []⟩ "u3" "a3" 0 1
        CommitOutcome.ok GenOutcome.raised CommitOutcome.ok).2.countP
        (isAiTyping false) = 0) := by
  constructor <;> rfl

/-- C1 (amended): once `typing(ai,true)` has been emitted (the user-message
commit succeeded on a validated input), `typing(ai,false)` is emitted
exactly once when the generator and the AI-message commit both succeed, and
zero times when either fails — on the failure paths the handler instead
emits the `error` event to the sender and terminates with the typing
indicator never cleared. -/
theorem typing_clear_count (sid cid c : String) (db : DB) (uu ua : String)
    (tu ta : Nat) (g : GenOutcome) (ca : CommitOutcome)
    (hcid : cid ≠ "") (hc : c ≠ "") :
    ((send_message sid (some cid) (some c) db uu ua tu ta
        CommitOutcome.ok g ca).2.countP (isAiTyping true) = 1)
    ∧ ((send_message sid (some cid) (some c) db uu ua tu ta
        CommitOutcome.ok g ca).2.countP (isAiTyping false) =
      match g, ca with
      | GenOutcome.ok _, CommitOutcome.ok => 1
      | _, _ => 0) := by
  unfold send_message
  cases g <;> cases ca <;>
    simp [pyFalsyStr, hcid, hc, List.countP, List.countP.go, isAiTyping]

/-- Witness for `typing_clear_count`: a concrete run with a failing
AI-message commit emits `typing(ai,true)` once and `typing(ai,false)`
never. -/
theorem typing_clear_count_witness :
    ((send_message "s4" (some "c4") (some "hi") ⟨[], []⟩ "u4" "a4" 0 1
        CommitOutcome.ok (GenOutcome.ok { content := "r", actions := none })
        CommitOutcome.raised).2.countP (isAiTyping true) = 1)
    ∧ ((send_message "s4" (some "c4") (some "hi") ⟨[], []⟩ "u4" "a4" 0 1
        CommitOutcome.ok (GenOutcome.ok { content := "r", actions := none })
        CommitOutcome.raised).2.countP (isAiTyping false) = 0) :=
  typing_clear_count "s4" "c4" "hi" ⟨[], []⟩ "u4" "a4" 0 1
    (GenOutcome.ok { content := "r", actions := none }) CommitOutcome.raised
    (by decide) (by decide)

/-- C4 (counterexample): a concrete run in which the generator call fails:
the handler emits only `new_message(user)`, `typing(ai,true)` and then the
`error` event to the sending session — there is no `typing(ai,false)` and
the error is not broadcast to the room, contradicting the claim that on a
generator timeout/failure an error is broadcast and `typing(ai,false)` is
still emitted. -/
theorem generator_failure_counterexample :
    (send_message "s5" (some "c5") (some "yo") ⟨[], []⟩ "u5" "a5" 0 1
        CommitOutcome.ok GenOutcome.raised CommitOutcome.ok).2 =
      [Emit.newMessage "c5"
         { id := "u5", conversation_id := "c5", sender := Sender.user,
           content := "yo", created_at := 0, updated_at := 0 } none,
       Emit.typingEvt "c5" none "ai" true,
       Emit.errorTo "s5" "Internal server error"]
    ∧ ((send_message "s5" (some "c5") (some "yo") ⟨[], []⟩ "u5" "a5" 0 1
        CommitOutcome.ok GenOutcome.raised CommitOutcome.ok).2.countP
        (isAiTyping false) = 0)
    ∧ isBroadcast (Emit.errorTo "s5" "Internal server error") = false := by
  refine ⟨rfl, rfl, rfl⟩

/-- C4 (amended): no timeout bounds the generator call (the handler awaits
`asyncio.to_thread(generate_ai_response, content)` bare, with no
`asyncio.wait_for`); when the generator raises, the handler emits the
`error` event to the sending session only — not broadcast to the room —
and terminates without emitting `typing(ai,false)`: the full trace on a
generator failure is `new_message(user)`, `typing(ai,true)`, `error` to
sender. -/
theorem generator_failure_behavior (sid cid c : String) (db : DB) (uu ua : String)
    (tu ta : Nat) (ca : CommitOutcome) (hcid : cid ≠ "") (hc : c ≠ "") :
    send_message sid (some cid) (some c) db uu ua tu ta
        CommitOutcome.ok GenOutcome.raised ca =
      ({ db with messages := db.messages ++
          [{ id := uu, conversation_id := cid, sender := Sender.user,
             content := c, created_at := tu, updated_at := tu }] },
       [Emit.newMessage cid
          { id := uu, conversation_id := cid, sender := Sender.user,
            content := c, created_at := tu, updated_at := tu } none,
        Emit.typingEvt cid none "ai" true,
        Emit.errorTo sid "Internal server error"]) := by
  unfold send_message
  simp [pyFalsyStr, hcid, hc]

/-- Witness for `generator_failure_behavior` at a concrete input. -/
theorem generator_failure_behavior_witness :
    send_message "s6" (some "c6") (some "yo") ⟨[], []⟩ "u6" "a6" 7 8
        CommitOutcome.ok GenOutcome.raised CommitOutcome.ok =
      ({ conversations := [], messages :=
          [{ id := "u6", conversation_id := "c6", sender := Sender.user,
             content := "yo", created_at := 7, updated_at := 7 }] },
       [Emit.newMessage "c6"
          { id := "u6", conversation_id := "c6", sender := Sender.user,
            content := "yo", created_at := 7, updated_at := 7 } none,
        Emit.typingEvt "c6" none "ai" true,
        Emit.errorTo "s6" "Internal server error"]) :=
  generator_failure_behavior "s6" "c6" "yo" ⟨[], []⟩ "u6" "a6" 7 8
    CommitOutcome.ok (by decide) (by decide)

/-- C3 (counterexample): a concrete `send_message` naming a conversation
absent from the store (the conversations table is empty), traced through
the shipped handler: the user message is persisted against the absent
conversation and two events (`new_message(user)`, `typing(ai,true)`) are
broadcast to the room before the handler's generator call raises and the
internal error reaches the sender — contradicting the claim that no
message is persisted and no room broadcast occurs. -/
theorem missing_conversation_counterexample :
    ((send_message_shipped "s7" (some "ghost") (some "hi") ⟨[], []⟩ "u7" "a7" 0 1
        CommitOutcome.ok).1.messages.length = 1)
    ∧ ((send_message_shipped "s7" (some "ghost") (some "hi") ⟨[], []⟩ "u7" "a7" 0 1
        CommitOutcome.ok).2.countP isBroadcast = 2) := by
  refine ⟨rfl, rfl⟩

/-- C3 (amended): the Socket.IO `send_message` handler performs no
conversation-existence check: for a `conversationId` absent from the store
the user message is persisted against the absent conversation and
broadcast, `typing(ai,true)` is broadcast, and the handler then emits the
generic internal error to the sending session — its generator call raising
for a reason unrelated to the conversation — never a not-found error; the
first conjunct nowhere consults the conversations table.  Only the REST
`POST /conversations/{id}/messages` endpoint rejects the absent
conversation, with a 404 and an unchanged store. -/
theorem missing_conversation_behavior (sid cid c : String) (db : DB)
    (uu ua : String) (tu ta : Nat) (s : Sender) (ct uuid : String) (t : Nat)
    (hmiss : ∀ cv ∈ db.conversations, cv.id ≠ cid)
    (hcid : cid ≠ "") (hc : c ≠ "") :
    send_message_shipped sid (some cid) (some c) db uu ua tu ta CommitOutcome.ok =
      ({ db with messages := db.messages ++
          [{ id := uu, conversation_id := cid, sender := Sender.user,
             content := c, created_at := tu, updated_at := tu }] },
       [Emit.newMessage cid
          { id := uu, conversation_id := cid, sender := Sender.user,
            content := c, created_at := tu, updated_at := tu } none,
        Emit.typingEvt cid none "ai" true,
        Emit.errorTo sid "Internal server error"])
    ∧ rest_send_message db cid s ct uuid t = (db, Except.error 404) := by
  constructor
  · unfold send_message_shipped send_message
    simp [pyFalsyStr, hcid, hc]
  · have hany : db.conversations.any (fun cv => cv.id == cid) = false := by
      simp only [List.any_eq_false]
      intro cv hcv
      simpa using hmiss cv hcv
    unfold rest_send_message
    simp [hany]

/-- Witness for `missing_conversation_behavior` at a concrete input with an
empty conversations table. -/
theorem missing_conversation_behavior_witness :
    send_message_shipped "s8" (some "ghost") (some "hi") ⟨[], []⟩ "u8" "a8" 0 1
        CommitOutcome.ok =
      ({ conversations := [], messages :=
          [{ id := "u8", conversation_id := "ghost", sender := Sender.user,
             content := "hi", created_at := 0, updated_at := 0 }] },
       [Emit.newMessage "ghost"
          { id := "u8", conversation_id := "ghost", sender := Sender.user,
            content := "hi", created_at := 0, updated_at := 0 } none,
        Emit.typingEvt "ghost" none "ai" true,
        Emit.errorTo "s8" "Internal server error"])
    ∧ rest_send_message ⟨[], []⟩ "ghost" Sender.user "hi" "u9" 0 =
        (⟨[], []⟩, Except.error 404) :=
  missing_conversation_behavior "s8" "ghost" "hi" ⟨[], []⟩ "u8" "a8" 0 1
    Sender.user "hi" "u9" 0 (by intro cv hcv; cases hcv) (by decide) (by decide)

/-- C8: when every stored row matching the target message id and
conversation id was sent by the AI, both the REST edit and the REST delete
fail with the 404 not-found result and return the store unchanged — the
row filter of both endpoints additionally requires `sender == user`, so an
AI message can never be edited or deleted through the REST surface. -/
theorem ai_message_not_editable (db : DB) (cid mid : String) (nc : Option String)
    (now : Nat)
    (h : ∀ m ∈ db.messages, m.id = mid → m.conversation_id = cid →
      m.sender = Sender.ai) :
    edit_message db cid mid nc now = (db, Except.error 404)
    ∧ delete_message db cid mid = (db, Except.error 404) := by
  have hfind : db.messages.find? (editableFilter cid mid) = none := by
    rw [List.find?_eq_none]
    intro m hm
    simp only [editableFilter, Bool.and_eq_true, beq_iff_eq, not_and]
    intro h1 h2
    have hai := h m hm h1.1 h1.2
    rw [hai] at h2
    exact absurd h2 (by decide)
  constructor
  · unfold edit_message
    rw [hfind]
  · unfold delete_message
    rw [hfind]

/-- Witness for `ai_message_not_editable`: a store holding one AI-sent
message; editing and deleting it both return 404 with the store intact. -/
theorem ai_message_not_editable_witness :
    edit_message
        ⟨[{ id := "cv1", user_id := "usr", created_at := 0 }],
         [{ id := "m1", conversation_id := "cv1", sender := Sender.ai,
            content := "hello", created_at := 0, updated_at := 0 }]⟩
        "cv1" "m1" (some "new text") 5 =
      (⟨[{ id := "cv1", user_id := "usr", created_at := 0 }],
        [{ id := "m1", conversation_id := "cv1", sender := Sender.ai,
           content := "hello", created_at := 0, updated_at := 0 }]⟩,
       Except.error 404)
    ∧ delete_message
        ⟨[{ id := "cv1", user_id := "usr", created_at := 0 }],
         [{ id := "m1", conversation_id := "cv1", sender := Sender.ai,
            content := "hello", created_at := 0, updated_at := 0 }]⟩
        "cv1" "m1" =
      (⟨[{ id := "cv1", user_id := "usr", created_at := 0 }],
        [{ id := "m1", conversation_id := "cv1", sender := Sender.ai,
           content := "hello", created_at := 0, updated_at := 0 }]⟩,
       Except.error 404) :=
  ai_message_not_editable
    ⟨[{ id := "cv1", user_id := "usr", created_at := 0 }],
     [{ id := "m1", conversation_id := "cv1", sender := Sender.ai,
        content := "hello", created_at := 0, updated_at := 0 }]⟩
    "cv1" "m1" (some "new text") 5 (by decide)

/-- C9 (code evaluated at the failing input): `generate_ai_response`
requires two positional parameters but its only call site passes one
(`generator_call_raises`), so on every valid `send_message` — here the
concrete event with conversationId `c1` and content `hi` on an empty
store — the shipped handler raises at the generator call and emits
`new_message(user)`, `typing(ai,true)` and the internal error to the
sender: no AI `new_message` is ever broadcast, so the payload the claim
describes (always carrying the `actions` key, non-null exactly on the
`"learn more"` / `"account issue"` substrings) belongs to dead code.  The
last two conjuncts evaluate that dead actions logic as it stands in
`chatbot_logic.py`. -/
theorem ai_reply_never_broadcast :
    generator_call_raises = true
    ∧ (send_message_shipped "s1" (some "c1") (some "hi") ⟨[], []⟩ "u1" "a1" 0 1
        CommitOutcome.ok).2 =
      [Emit.newMessage "c1"
         { id := "u1", conversation_id := "c1", sender := Sender.user,
           content := "hi", created_at := 0, updated_at := 0 } none,
       Emit.typingEvt "c1" none "ai" true,
       Emit.errorTo "s1" "Internal server error"]
    ∧ ((send_message_shipped "s1" (some "c1") (some "hi") ⟨[], []⟩ "u1" "a1" 0 1
        CommitOutcome.ok).2.countP isAiNewMessage = 0)
    ∧ (generate_ai_response "you can learn more here").actions =
        some { action1 := "Learn More", action2 := "Get Help" }
    ∧ (generate_ai_response "plain reply").actions = none := by
  refine ⟨rfl, rfl, rfl, by decide, by decide⟩

/-- C7: for every page number `page ≥ 1` and page size `1 ≤ size ≤ 100`
(the bounds enforced by the route's query validation), the paginated query
reports the conversation's total message count, returns exactly the slice
of the newest-first ordering that skips the first `(page - 1) * size`
messages and takes at most `size` of them; the returned page is sorted by
creation time descending and contains only messages of that conversation. -/
theorem get_messages_spec (db : DB) (cid : String) (page size : Nat)
    (_hp : 1 ≤ page) (_hs1 : 1 ≤ size) (_hs2 : size ≤ 100) :
    (get_messages db cid page size).total =
        (db.messages.filter (fun m => m.conversation_id == cid)).length
    ∧ (get_messages db cid page size).messages =
        ((sortByCreatedDesc
            (db.messages.filter (fun m => m.conversation_id == cid))).drop
          ((page - 1) * size)).take size
    ∧ (get_messages db cid page size).messages.length ≤ size
    ∧ List.Pairwise (fun a b => b.created_at ≤ a.created_at)
        (get_messages db cid page size).messages
    ∧ ((get_messages db cid page size).messages.all
        (fun m => db.messages.contains m && m.conversation_id == cid)) = true
    ∧ (get_messages db cid page size).page = page
    ∧ (get_messages db cid page size).size = size := by
  have hmsgs : (get_messages db cid page size).messages =
      ((sortByCreatedDesc
          (db.messages.filter (fun m => m.conversation_id == cid))).drop
        ((page - 1) * size)).take size := rfl
  have hsub : (((sortByCreatedDesc
      (db.messages.filter (fun m => m.conversation_id == cid))).drop
        ((page - 1) * size)).take size).Sublist
      (sortByCreatedDesc (db.messages.filter (fun m => m.conversation_id == cid))) :=
    (List.take_sublist _ _).trans (List.drop_sublist _ _)
  have htrans : ∀ a b c : Msg, (decide (b.created_at ≤ a.created_at)) = true →
      (decide (c.created_at ≤ b.created_at)) = true →
      (decide (c.created_at ≤ a.created_at)) = true := by
    intro a b c hab hbc
    simp only [decide_eq_true_eq] at hab hbc ⊢
    exact le_trans hbc hab
  have htotal : ∀ a b : Msg, (decide (b.created_at ≤ a.created_at) ||
      decide (a.created_at ≤ b.created_at)) = true := by
    intro a b
    rcases Nat.le_total a.created_at b.created_at with h | h <;> simp [h]
  have hsorted := List.sorted_mergeSort htrans htotal
      (db.messages.filter (fun m => m.conversation_id == cid))
  refine ⟨rfl, rfl, ?_, ?_, ?_, rfl, rfl⟩
  · rw [hmsgs, List.length_take]
    exact min_le_left _ _
  · rw [hmsgs]
    exact (List.Pairwise.sublist hsub hsorted).imp fun h => of_decide_eq_true h
  · rw [hmsgs, List.all_eq_true]
    intro m hmem
    have hmem2 : m ∈ db.messages.filter (fun m => m.conversation_id == cid) :=
      (List.mergeSort_perm _ _).subset (hsub.subset hmem)
    rcases List.mem_filter.mp hmem2 with ⟨hdb, hcid2⟩
    rw [Bool.and_eq_true]
    exact ⟨List.elem_eq_true_of_mem hdb, hcid2⟩

/-- Witness for `get_messages_spec`: page 1 of size 2 over a store with
three messages in the conversation (created at times 5, 9, 1) and one
foreign message. -/
theorem get_messages_spec_witness :
    (get_messages
        ⟨[], [{ id := "m1", conversation_id := "cv", sender := Sender.user,
                content := "a", created_at := 5, updated_at := 5 },
              { id := "m2", conversation_id := "cv", sender := Sender.ai,
                content := "b", created_at := 9, updated_at := 9 },
              { id := "m3", conversation_id := "other", sender := Sender.user,
                content := "c", created_at := 7, updated_at := 7 },
              { id := "m4", conversation_id := "cv", sender := Sender.user,
                content := "d", created_at := 1, updated_at := 1 }]⟩
        "cv" 1 2).total =
      (([{ id := "m1", conversation_id := "cv", sender := Sender.user,
           content := "a", created_at := 5, updated_at := 5 },
         { id := "m2", conversation_id := "cv", sender := Sender.ai,
           content := "b", created_at := 9, updated_at := 9 },
         { id := "m3", conversation_id := "other", sender := Sender.user,
           content := "c", created_at := 7, updated_at := 7 },
         { id := "m4", conversation_id := "cv", sender := Sender.user,
           content := "d", created_at := 1, updated_at := 1 }] : List Msg).filter
        (fun m => m.conversation_id == "cv")).length
    ∧ (get_messages
        ⟨[], [{ id := "m1", conversation_id := "cv", sender := Sender.user,
                content := "a", created_at := 5, updated_at := 5 },
              { id := "m2", conversation_id := "cv", sender := Sender.ai,
                content := "b", created_at := 9, updated_at := 9 },
              { id := "m3", conversation_id := "other", sender := Sender.user,
                content := "c", created_at := 7, updated_at := 7 },
              { id := "m4", conversation_id := "cv", sender := Sender.user,
                content := "d", created_at := 1, updated_at := 1 }]⟩
        "cv" 1 2).messages =
      ((sortByCreatedDesc
          (([{ id := "m1", conversation_id := "cv", sender := Sender.user,
               content := "a", created_at := 5, updated_at := 5 },
             { id := "m2", conversation_id := "cv", sender := Sender.ai,
               content := "b", created_at := 9, updated_at := 9 },
             { id := "m3", conversation_id := "other", sender := Sender.user,
               content := "c", created_at := 7, updated_at := 7 },
             { id := "m4", conversation_id := "cv", sender := Sender.user,
               content := "d", created_at := 1, updated_at := 1 }] : List Msg).filter
            (fun m => m.conversation_id == "cv"))).drop ((1 - 1) * 2)).take 2
    ∧ (get_messages
        ⟨[], [{ id := "m1", conversation_id := "cv", sender := Sender.user,
                content := "a", created_at := 5, updated_at := 5 },
              { id := "m2", conversation_id := "cv", sender := Sender.ai,
                content := "b", created_at := 9, updated_at := 9 },
              { id := "m3", conversation_id := "other", sender := Sender.user,
                content := "c", created_at := 7, updated_at := 7 },
              { id := "m4", conversation_id := "cv", sender := Sender.user,
                content := "d", created_at := 1, updated_at := 1 }]⟩
        "cv" 1 2).messages.length ≤ 2
    ∧ List.Pairwise (fun a b => b.created_at ≤ a.created_at)
        (get_messages
          ⟨[], [{ id := "m1", conversation_id := "cv", sender := Sender.user,
                  content := "a", created_at := 5, updated_at := 5 },
                { id := "m2", conversation_id := "cv", sender := Sender.ai,
                  content := "b", created_at := 9, updated_at := 9 },
                { id := "m3", conversation_id := "other", sender := Sender.user,
                  content := "c", created_at := 7, updated_at := 7 },
                { id := "m4", conversation_id := "cv", sender := Sender.user,
                  content := "d", created_at := 1, updated_at := 1 }]⟩
          "cv" 1 2).messages
    ∧ ((get_messages
          ⟨[], [{ id := "m1", conversation_id := "cv", sender := Sender.user,
                  content := "a", created_at := 5, updated_at := 5 },
                { id := "m2", conversation_id := "cv", sender := Sender.ai,
                  content := "b", created_at := 9, updated_at := 9 },
                { id := "m3", conversation_id := "other", sender := Sender.user,
                  content := "c", created_at := 7, updated_at := 7 },
                { id := "m4", conversation_id := "cv", sender := Sender.user,
                  content := "d", created_at := 1, updated_at := 1 }]⟩
          "cv" 1 2).messages.all
        (fun m =>
          ([{ id := "m1", conversation_id := "cv", sender := Sender.user,
              content := "a", created_at := 5, updated_at := 5 },
            { id := "m2", conversation_id := "cv", sender := Sender.ai,
              content := "b", created_at := 9, updated_at := 9 },
            { id := "m3", conversation_id := "other", sender := Sender.user,
              content := "c", created_at := 7, updated_at := 7 },
            { id := "m4", conversation_id := "cv", sender := Sender.user,
              content := "d", created_at := 1, updated_at := 1 }] : List Msg).contains m
            && m.conversation_id == "cv")) = true
    ∧ (get_messages
        ⟨[], [{ id := "m1", conversation_id := "cv", sender := Sender.user,
                content := "a", created_at := 5, updated_at := 5 },
              { id := "m2", conversation_id := "cv", sender := Sender.ai,
                content := "b", created_at := 9, updated_at := 9 },
              { id := "m3", conversation_id := "other", sender := Sender.user,
                content := "c", created_at := 7, updated_at := 7 },
              { id := "m4", conversation_id := "cv", sender := Sender.user,
                content := "d", created_at := 1, updated_at := 1 }]⟩
        "cv" 1 2).page = 1
    ∧ (get_messages
        ⟨[], [{ id := "m1", conversation_id := "cv", sender := Sender.user,
                content := "a", created_at := 5, updated_at := 5 },
              { id := "m2", conversation_id := "cv", sender := Sender.ai,
                content := "b", created_at := 9, updated_at := 9 },
              { id := "m3", conversation_id := "other", sender := Sender.user,
                content := "c", created_at := 7, updated_at := 7 },
              { id := "m4", conversation_id := "cv", sender := Sender.user,
                content := "d", created_at := 1, updated_at := 1 }]⟩
        "cv" 1 2).size = 2 :=
  get_messages_spec
    ⟨[], [{ id := "m1", conversation_id := "cv", sender := Sender.user,
            content := "a", created_at := 5, updated_at := 5 },
          { id := "m2", conversation_id := "cv", sender := Sender.ai,
            content := "b", created_at := 9, updated_at := 9 },
          { id := "m3", conversation_id := "other", sender := Sender.user,
            content := "c", created_at := 7, updated_at := 7 },
          { id := "m4", conversation_id := "cv", sender := Sender.user,
            content := "d", created_at := 1, updated_at := 1 }]⟩
    "cv" 1 2 (by decide) (by decide) (by decide)

end ChatWidget
